import Mathlib

/-!
Verification of the Aptoide scraper core (`app/scraper.py`).

The Python module is shallowly embedded: JSON values parsed by `r.json()`
become the inductive `Json`; Python dictionaries become association lists
(`json.loads` keeps the last occurrence of a duplicated key, so lookups
return the last binding); fallible dynamic attribute access and dynamic
typing are made explicit with `Except PyErr`.  Exceptions raised by the
Python code are encoded by `PyErr`: the constructor records the Python
exception class that is relevant for the `except` clauses of the source
(`ValueError`, `TypeError`, `AttributeError`, and `requests` transport
errors).  Floating-point formatting (`f"{x:.1f}"`) is modelled with exact
integer arithmetic and round-half-to-even, which is the rounding Python
applies; the two agree on every value whose decimal expansion is exactly
representable, in particular on all values appearing in the claims.
-/

set_option autoImplicit false

namespace AptoideScraper

/-- JSON values, as returned by `r.json()` in `resolve_app_url`.
Numbers are modelled as integers (the fields the scraper reads are
integer-valued).  Objects are association lists; `json.loads` produces
dictionaries whose lookup yields the last binding of a key. -/
inductive Json where
  | null : Json
  | bool (b : Bool) : Json
  | num (n : Int) : Json
  | str (s : String) : Json
  | arr (items : List Json) : Json
  | obj (fields : List (String × Json)) : Json

/-- Python exceptions relevant to `scraper.py`, keyed by the class the
`except` clauses dispatch on.  `valueError` covers both the explicit
`raise ValueError("App not found on Aptoide")` and `json.JSONDecodeError`
(a subclass of `ValueError` in the Python standard library, and hence of
`requests.exceptions.JSONDecodeError`).  `requestError` covers
`requests.RequestException` (connection failure, timeout,
`raise_for_status`), which is not a `ValueError`. -/
inductive PyErr where
  | valueError (msg : String) : PyErr
  | typeError (msg : String) : PyErr
  | attributeError (msg : String) : PyErr
  | requestError (msg : String) : PyErr

/-- The Python type name of a JSON value, as it appears in error messages. -/
def pyTypeName : Json → String
  | .null => "NoneType"
  | .bool _ => "bool"
  | .num _ => "int"
  | .str _ => "str"
  | .arr _ => "list"
  | .obj _ => "dict"

/-- Dictionary lookup: the value of the last binding of `key`, as in a
Python dict built by `json.loads` (later duplicate keys win). -/
def jLookup (fields : List (String × Json)) (key : String) : Option Json :=
  fields.foldl (fun acc kv => if kv.1 = key then some kv.2 else acc) none

/-- Python `v.get(key, default)`: succeeds only on a dict; any other value
has no attribute `get` and raises `AttributeError`. -/
def pyGet (v : Json) (key : String) (default : Json) : Except PyErr Json :=
  match v with
  | .obj fields => .ok ((jLookup fields key).getD default)
  | v => .error (.attributeError ("'" ++ pyTypeName v ++ "' object has no attribute 'get'"))

/-- Python iteration `for x in v`: lists yield their elements, strings
yield their characters as one-character strings, dicts yield their keys;
`None`, booleans and numbers are not iterable (`TypeError`). -/
def pyIter (v : Json) : Except PyErr (List Json) :=
  match v with
  | .arr items => .ok items
  | .str s => .ok (s.data.map (fun c => .str (String.mk [c])))
  | .obj fields => .ok (fields.map (fun kv => .str kv.1))
  | v => .error (.typeError ("'" ++ pyTypeName v ++ "' object is not iterable"))

/-! ### Field formatters (`format_downloads`, `format_size`) -/

/-- Round `num / den` (both non-negative) to `decimals` decimal places with
round-half-to-even, returning the scaled integer `round(num * 10^decimals / den)`.
This is the rounding Python's fixed-point float formatting performs. -/
def roundHalfEven (num den : Nat) (decimals : Nat) : Nat :=
  let scaled := num * 10 ^ decimals
  let q := scaled / den
  let r := scaled % den
  if 2 * r < den then q
  else if 2 * r > den then q + 1
  else if q % 2 = 0 then q else q + 1

/-- Render a non-negative scaled integer with `decimals` digits after the
decimal point, e.g. `renderFixed 10000 1 = "1000.0"`, `renderFixed 5 1 = "0.5"`. -/
def renderFixed (scaled : Nat) (decimals : Nat) : String :=
  if decimals = 0 then toString scaled
  else
    let s := toString scaled
    let s := if s.length < decimals + 1 then
               String.mk (List.replicate (decimals + 1 - s.length) '0') ++ s
             else s
    s.take (s.length - decimals) ++ "." ++ s.drop (s.length - decimals)

/-- Python `f"{num / den:.{decimals}f}"` for integer `num` and positive
integer `den`, modelled with exact arithmetic: divide, round half-to-even
to `decimals` places and render.  A negative value that rounds to zero
keeps its sign (`"-0.0"`), as Python's float formatting does. -/
def pyDivFormat (num : Int) (den : Nat) (decimals : Nat) : String :=
  if num < 0 then "-" ++ renderFixed (roundHalfEven num.natAbs den decimals) decimals
  else renderFixed (roundHalfEven num.toNat den decimals) decimals

/-- Model of `format_downloads` from `scraper.py`: tiered abbreviation of a
download count. -/
def format_downloads (downloads : Int) : String :=
  if 1000000000 ≤ downloads then pyDivFormat downloads 1000000000 0 ++ "B"
  else if 1000000 ≤ downloads then pyDivFormat downloads 1000000 1 ++ "M"
  else if 1000 ≤ downloads then pyDivFormat downloads 1000 1 ++ "K"
  else toString downloads

/-- Model of `format_size` from `scraper.py`: bytes to megabytes, one decimal place. -/
def format_size (size_bytes : Int) : String :=
  pyDivFormat size_bytes (1024 * 1024) 1 ++ " MB"

/-! ### Certificate parser (`parse_certificate_info`) -/

/-- The `STATE_TO_ABBR` table from `scraper.py`: 50 US states plus the
District of Columbia, mapped to their two-letter abbreviations. -/
def STATE_TO_ABBR : List (String × String) :=
  [("Alabama", "AL"), ("Alaska", "AK"), ("Arizona", "AZ"), ("Arkansas", "AR"),
   ("California", "CA"), ("Colorado", "CO"), ("Connecticut", "CT"), ("Delaware", "DE"),
   ("Florida", "FL"), ("Georgia", "GA"), ("Hawaii", "HI"), ("Idaho", "ID"),
   ("Illinois", "IL"), ("Indiana", "IN"), ("Iowa", "IA"), ("Kansas", "KS"),
   ("Kentucky", "KY"), ("Louisiana", "LA"), ("Maine", "ME"), ("Maryland", "MD"),
   ("Massachusetts", "MA"), ("Michigan", "MI"), ("Minnesota", "MN"), ("Mississippi", "MS"),
   ("Missouri", "MO"), ("Montana", "MT"), ("Nebraska", "NE"), ("Nevada", "NV"),
   ("New Hampshire", "NH"), ("New Jersey", "NJ"), ("New Mexico", "NM"), ("New York", "NY"),
   ("North Carolina", "NC"), ("North Dakota", "ND"), ("Ohio", "OH"), ("Oklahoma", "OK"),
   ("Oregon", "OR"), ("Pennsylvania", "PA"), ("Rhode Island", "RI"), ("South Carolina", "SC"),
   ("South Dakota", "SD"), ("Tennessee", "TN"), ("Texas", "TX"), ("Utah", "UT"),
   ("Vermont", "VT"), ("Virginia", "VA"), ("Washington", "WA"), ("West Virginia", "WV"),
   ("Wisconsin", "WI"), ("Wyoming", "WY"), ("District of Columbia", "DC")]

/-- Whitespace trimming on a character list: drop leading and trailing
whitespace. -/
def trimChars (cs : List Char) : List Char :=
  ((cs.dropWhile Char.isWhitespace).reverse.dropWhile Char.isWhitespace).reverse

/-- Python `s.strip()` (the inputs at stake are ASCII, where Lean's
`Char.isWhitespace` and Python's `strip` agree). -/
def pyStrip (s : String) : String := String.mk (trimChars s.data)

/-- Split a character list at every occurrence of `c`, keeping empty
segments, as Python's `split` with a one-character separator does
(`"".split(",") == [""]`). -/
def splitChar (c : Char) : List Char → List (List Char)
  | [] => [[]]
  | x :: xs =>
      if x == c then [] :: splitChar c xs
      else
        match splitChar c xs with
        | [] => [[x]]
        | seg :: segs => (x :: seg) :: segs

/-- Python `cert_owner.split(",")`. -/
def pySplitComma (s : String) : List String :=
  (splitChar ',' s.data).map String.mk

/-- The character list before the first occurrence of `c`, and the list
after it, when `c` occurs. -/
def breakAtChar (c : Char) : List Char → Option (List Char × List Char)
  | [] => none
  | x :: xs =>
      if x == c then some ([], xs)
      else
        match breakAtChar c xs with
        | none => none
        | some (pre, post) => some (x :: pre, post)

/-- Python `part.split("=", 1)`: the text before the first `=` and
everything after it (further `=` signs stay in the value); the input
unchanged when there is no `=`. -/
def pySplitFirstEq (s : String) : String × String :=
  match breakAtChar '=' s.data with
  | none => (s, "")
  | some (k, v) => (String.mk k, String.mk v)

/-- The result record of `parse_certificate_info`: exactly the five keys
of the Python dict, each holding a string. -/
structure CertInfo where
  developer_cn : String
  organization : String
  «local» : String
  country : String
  state_city : String
deriving DecidableEq

/-- The initial all-empty-string dict of `parse_certificate_info`. -/
def emptyCert : CertInfo := ⟨"", "", "", "", ""⟩

/-- One iteration of the `for part in parts` loop of
`parse_certificate_info`: a segment without `=` is skipped; otherwise the
segment is split on the first `=`, key and value are stripped, the five
recognised keys update their field (with `ST` normalised through
`STATE_TO_ABBR`), and any other key is ignored. -/
def certStep (result : CertInfo) (part : String) : CertInfo :=
  if part.data.contains '=' then
    let kv := pySplitFirstEq part
    let key := pyStrip kv.1
    let value := pyStrip kv.2
    if key = "CN" then { result with developer_cn := value }
    else if key = "O" then { result with organization := value }
    else if key = "L" then { result with «local» := value }
    else if key = "C" then { result with country := value }
    else if key = "ST" then
      { result with state_city := (STATE_TO_ABBR.lookup value).getD value }
    else result
  else result

/-- Model of `parse_certificate_info` from `scraper.py`: split the owner string on
commas, strip each segment, and fold the segments over the initial
all-empty dict. -/
def parse_certificate_info (cert_owner : String) : CertInfo :=
  List.foldl certStep emptyCert ((pySplitComma cert_owner).map pyStrip)

/-! ### Resolver (`resolve_app_url`) -/

/-- The `if app.get("package") == package_name` test of the search loop:
`app.get` returns `None` when the key is missing, and only a string value
can compare equal to the requested name. -/
def isMatch (package_name : String) (fields : List (String × Json)) : Bool :=
  match jLookup fields "package" with
  | some (.str s) => s == package_name
  | _ => false

/-- The `for app in apps` search loop of `resolve_app_url`: return the
first element whose `package` field equals the requested name exactly;
raise `ValueError("App not found on Aptoide")` when the list is exhausted;
a non-dict element raises `AttributeError` at `app.get`. -/
def findExact (package_name : String) : List Json → Except PyErr Json
  | [] => .error (.valueError "App not found on Aptoide")
  | .obj fields :: rest =>
      if isMatch package_name fields then .ok (.obj fields)
      else findExact package_name rest
  | a :: _ => .error (.attributeError ("'" ++ pyTypeName a ++ "' object has no attribute 'get'"))

/-- The body of the `try` block of `resolve_app_url`:
`data.get("datalist", {}).get("list", [])`, then the search loop. -/
def resolveBody (package_name : String) (data : Json) : Except PyErr Json := do
  let datalist ← pyGet data "datalist" (.obj [])
  let listVal ← pyGet datalist "list" (.arr [])
  let apps ← pyIter listVal
  findExact package_name apps

/-- Outcome of the network part of `resolve_app_url`
(`requests.get` / `raise_for_status` / `r.json()`), which is outside the
`try` block: a transport error (`requests.RequestException`, not a
`ValueError`), a body that is not valid JSON (`JSONDecodeError`, a
`ValueError` subclass), or a parsed JSON document. -/
inductive HttpOutcome where
  | transportError (msg : String) : HttpOutcome
  | jsonDecodeError (msg : String) : HttpOutcome
  | ok (data : Json) : HttpOutcome

/-- Model of `resolve_app_url` from `scraper.py`, as a function of the upstream
outcome.  The `except (KeyError, TypeError)` clause turns a `TypeError`
raised inside the `try` block into `ValueError("App not found on Aptoide")`
(no `KeyError` can occur: all dictionary access uses `.get`); every other
exception — including `AttributeError` from a wrongly-typed intermediate
value — propagates unchanged. -/
def resolve_app_url (package_name : String) (h : HttpOutcome) : Except PyErr Json :=
  match h with
  | .transportError msg => .error (.requestError msg)
  | .jsonDecodeError msg => .error (.valueError msg)
  | .ok data =>
      match resolveBody package_name data with
      | .error (.typeError _) => .error (.valueError "App not found on Aptoide")
      | r => r

/-- The JSON document `{"datalist": {"list": apps}}`, the well-formed
upstream response shape around a candidate list. -/
def mkSearchData (apps : List Json) : Json :=
  .obj [("datalist", .obj [("list", .arr apps)])]

/-! ### Assembler (`format_app_data`) and façade (`get_app_details`) -/

/-- The response dict built by `format_app_data`.  Fields the Python code
passes through unchanged (`name`, `version`, `release_date`, `package_id`,
`sha1_signature`) keep their raw JSON value (`null` when absent); fields
the code always produces as strings are typed `String`. -/
structure AppRecord where
  name : Json
  size : String
  downloads : String
  version : Json
  release_date : Json
  min_screen : String
  supported_cpu : String
  package_id : Json
  sha1_signature : Json
  developer_cn : String
  organization : String
  «local» : String
  country : String
  state_city : String

/-- Python `cert_owner.split(...)` demands a string receiver: any other
value for the `owner` field raises `AttributeError` inside
`parse_certificate_info`. -/
def pyAsStr (v : Json) : Except PyErr String :=
  match v with
  | .str s => .ok s
  | v => .error (.attributeError ("'" ++ pyTypeName v ++ "' object has no attribute 'split'"))

/-- Model of `format_size(app_info.get("size", 0))`: the division raises
`TypeError` unless the value is numeric (a Python `bool` counts as `1`/`0`). -/
def formatSizeValue (v : Json) : Except PyErr String :=
  match v with
  | .num n => .ok (format_size n)
  | .bool b => .ok (format_size (if b then 1 else 0))
  | v => .error (.typeError ("unsupported operand type(s) for /: '" ++ pyTypeName v ++ "' and 'int'"))

/-- Model of `format_downloads(downloads)`: the `>=` comparisons raise `TypeError`
unless the value is numeric; a `bool` is numeric (below every tier) but
`str(True)` prints as `True`. -/
def formatDownloadsValue (v : Json) : Except PyErr String :=
  match v with
  | .num n => .ok (format_downloads n)
  | .bool b => .ok (if b then "True" else "False")
  | v => .error (.typeError ("'>=' not supported between instances of '" ++ pyTypeName v ++ "' and 'int'"))

/-- Model of `format_app_data` from `scraper.py`, with the source's evaluation
order: the nested `.get` chains for `file`/`signature`/`owner`, the
certificate parse, the `stats`/`downloads` lookup, then the response dict
field by field (`size` and `downloads` formatting may raise `TypeError`). -/
def format_app_data (app_info : Json) : Except PyErr AppRecord := do
  let file_info ← pyGet app_info "file" (.obj [])
  let signature_info ← pyGet file_info "signature" (.obj [])
  let ownerJ ← pyGet signature_info "owner" (.str "")
  let owner ← pyAsStr ownerJ
  let cert_parts := parse_certificate_info owner
  let statsJ ← pyGet app_info "stats" (.obj [])
  let downloadsJ ← pyGet statsJ "downloads" (.num 0)
  let nameJ ← pyGet app_info "name" .null
  let sizeJ ← pyGet app_info "size" (.num 0)
  let sizeStr ← formatSizeValue sizeJ
  let downloadsStr ← formatDownloadsValue downloadsJ
  let versionJ ← pyGet file_info "vername" .null
  let updatedJ ← pyGet app_info "updated" .null
  let packageJ ← pyGet app_info "package" .null
  let sha1J ← pyGet signature_info "sha1" .null
  pure { name := nameJ
         size := sizeStr
         downloads := downloadsStr
         version := versionJ
         release_date := updatedJ
         min_screen := "SMALL"
         supported_cpu := "arm64-v8a"
         package_id := packageJ
         sha1_signature := sha1J
         developer_cn := cert_parts.developer_cn
         organization := cert_parts.organization
         «local» := cert_parts.«local»
         country := cert_parts.country
         state_city := cert_parts.state_city }

/-- Model of `fetch_app_data` from `scraper.py`: resolve, then format. -/
def fetch_app_data (package_name : String) (h : HttpOutcome) : Except PyErr AppRecord := do
  let app_info ← resolve_app_url package_name h
  format_app_data app_info

/-- Model of `AptoideScraper.get_app_details` from `scraper.py`: the error type
collapses to a single exception (`AptoideScraperException`) carrying a
message — `except ValueError as e` re-raises with `str(e)` verbatim,
`except Exception as e` re-raises with the `"Failed to fetch app data: "`
prefix. -/
def get_app_details (package_name : String) (h : HttpOutcome) : Except String AppRecord :=
  match fetch_app_data package_name h with
  | .ok record => .ok record
  | .error (.valueError msg) => .error msg
  | .error (.typeError msg) => .error ("Failed to fetch app data: " ++ msg)
  | .error (.attributeError msg) => .error ("Failed to fetch app data: " ++ msg)
  | .error (.requestError msg) => .error ("Failed to fetch app data: " ++ msg)

/-- The integer a JSON value contributes when used in Python arithmetic
(`bool` counts as `1`/`0`); the non-numeric cases are never reached on the
success path of `format_app_data`. -/
def jNumCoerce : Json → Int
  | .num n => n
  | .bool b => if b then 1 else 0
  | _ => 0

/-! ### Helper lemmas -/

theorem findExact_ok_match (q : String) (apps : List Json) (a : Json)
    (h : findExact q apps = .ok a) :
    ∃ gs, a = Json.obj gs ∧ isMatch q gs = true := by
  induction apps with
  | nil => simp [findExact] at h
  | cons x rest ih =>
      cases x with
      | obj fields =>
          by_cases hm : isMatch q fields
          · rw [findExact, if_pos hm] at h
            injection h with h'
            exact ⟨fields, h'.symm, hm⟩
          · rw [findExact, if_neg hm] at h
            exact ih h
      | null => exact Except.noConfusion h
      | bool b => exact Except.noConfusion h
      | num n => exact Except.noConfusion h
      | str s => exact Except.noConfusion h
      | arr items => exact Except.noConfusion h

theorem isMatch_eq_package (q : String) (gs : List (String × Json))
    (h : isMatch q gs = true) : jLookup gs "package" = some (.str q) := by
  unfold isMatch at h
  split at h
  · rename_i s heq
    rw [heq, show s = q from eq_of_beq h]
  · exact absurd h (by simp)

theorem resolveBody_mkSearchData (q : String) (apps : List Json) :
    resolveBody q (mkSearchData apps) = findExact q apps := rfl

theorem resolve_ok_of_body_ok (q : String) (data a : Json)
    (h : resolveBody q data = .ok a) : resolve_app_url q (.ok data) = .ok a := by
  simp [resolve_app_url, h]

theorem findExact_prefix_skip (q : String) (pre : List (List (String × Json)))
    (fs : List (String × Json)) (rest : List Json)
    (hpre : ∀ gs ∈ pre, isMatch q gs = false) (hm : isMatch q fs = true) :
    findExact q (pre.map Json.obj ++ Json.obj fs :: rest) = .ok (.obj fs) := by
  induction pre with
  | nil => simp only [List.map_nil, List.nil_append]; rw [findExact, if_pos hm]
  | cons g pre' ih =>
      have hg : isMatch q g = false := hpre g (List.mem_cons_self g pre')
      simp only [List.map_cons, List.cons_append]
      rw [findExact, if_neg (by simp [hg])]
      exact ih (fun gs hgs => hpre gs (List.mem_cons_of_mem g hgs))

theorem findExact_all_nomatch (q : String) (apps : List (List (String × Json)))
    (hn : ∀ gs ∈ apps, isMatch q gs = false) :
    findExact q (apps.map Json.obj) = .error (.valueError "App not found on Aptoide") := by
  induction apps with
  | nil => rfl
  | cons g rest ih =>
      have hg : isMatch q g = false := hn g (List.mem_cons_self g rest)
      simp only [List.map_cons]
      rw [findExact, if_neg (by simp [hg])]
      exact ih (fun gs hgs => hn gs (List.mem_cons_of_mem g hgs))

theorem resolveBody_ok_match (q : String) (data a : Json)
    (h : resolveBody q data = .ok a) :
    ∃ gs, a = Json.obj gs ∧ isMatch q gs = true := by
  simp only [resolveBody, bind, Except.bind] at h
  cases hd : pyGet data "datalist" (Json.obj []) with
  | error e => simp only [hd] at h; exact Except.noConfusion h
  | ok datalist =>
      simp only [hd] at h
      cases hl : pyGet datalist "list" (Json.arr []) with
      | error e => simp only [hl] at h; exact Except.noConfusion h
      | ok listVal =>
          simp only [hl] at h
          cases hi : pyIter listVal with
          | error e => simp only [hi] at h; exact Except.noConfusion h
          | ok apps =>
              simp only [hi] at h
              exact findExact_ok_match q apps a h

theorem resolve_ok_match (q : String) (h : HttpOutcome) (a : Json)
    (hr : resolve_app_url q h = .ok a) :
    ∃ gs, a = Json.obj gs ∧ jLookup gs "package" = some (.str q) := by
  cases h with
  | transportError m => exact Except.noConfusion hr
  | jsonDecodeError m => exact Except.noConfusion hr
  | ok data =>
      simp only [resolve_app_url] at hr
      cases hb : resolveBody q data with
      | ok x =>
          simp only [hb] at hr
          obtain ⟨gs, rfl, hm⟩ := resolveBody_ok_match q data x hb
          injection hr with hx
          exact ⟨gs, hx.symm, isMatch_eq_package q gs hm⟩
      | error e =>
          simp only [hb] at hr
          cases e <;> simp_all

theorem pyGet_obj (fs : List (String × Json)) (k : String) (d : Json) :
    pyGet (Json.obj fs) k d = .ok ((jLookup fs k).getD d) := rfl

theorem formatSizeValue_ok (v : Json) (s : String)
    (h : formatSizeValue v = .ok s) : s = format_size (jNumCoerce v) := by
  cases v with
  | num n => injection h with h'; rw [← h']; rfl
  | bool b => injection h with h'; rw [← h']; rfl
  | null => exact Except.noConfusion h
  | str t => exact Except.noConfusion h
  | arr items => exact Except.noConfusion h
  | obj fields => exact Except.noConfusion h

theorem certStep_skip (result : CertInfo) (part : String)
    (hc : part.data.contains '=' = false) : certStep result part = result := by
  simp only [certStep]
  rw [if_neg (by simpa using hc)]

theorem certStep_update (result : CertInfo) (part k v : String)
    (hc : part.data.contains '=' = true) (hsplit : pySplitFirstEq part = (k, v)) :
    certStep result part =
      (if pyStrip k = "CN" then { result with developer_cn := pyStrip v }
       else if pyStrip k = "O" then { result with organization := pyStrip v }
       else if pyStrip k = "L" then { result with «local» := pyStrip v }
       else if pyStrip k = "C" then { result with country := pyStrip v }
       else if pyStrip k = "ST" then
         { result with state_city := (STATE_TO_ABBR.lookup (pyStrip v)).getD (pyStrip v) }
       else result) := by
  simp only [certStep]
  rw [if_pos hc, hsplit]

theorem format_app_data_fields (gs : List (String × Json)) (rec : AppRecord)
    (h : format_app_data (Json.obj gs) = .ok rec) :
    rec.package_id = (jLookup gs "package").getD Json.null ∧
    rec.size = format_size (jNumCoerce ((jLookup gs "size").getD (Json.num 0))) := by
  simp only [format_app_data, bind, Except.bind, pure, Except.pure, pyGet_obj] at h
  cases h1 : pyGet ((jLookup gs "file").getD (Json.obj [])) "signature" (Json.obj []) with
  | error e => simp only [h1] at h; exact Except.noConfusion h
  | ok sig =>
  simp only [h1] at h
  cases h2 : pyGet sig "owner" (Json.str "") with
  | error e => simp only [h2] at h; exact Except.noConfusion h
  | ok ownerJ =>
  simp only [h2] at h
  cases h3 : pyAsStr ownerJ with
  | error e => simp only [h3] at h; exact Except.noConfusion h
  | ok owner =>
  simp only [h3] at h
  cases h4 : pyGet ((jLookup gs "stats").getD (Json.obj [])) "downloads" (Json.num 0) with
  | error e => simp only [h4] at h; exact Except.noConfusion h
  | ok dJ =>
  simp only [h4] at h
  cases h5 : formatSizeValue ((jLookup gs "size").getD (Json.num 0)) with
  | error e => simp only [h5] at h; exact Except.noConfusion h
  | ok sizeStr =>
  simp only [h5] at h
  cases h6 : formatDownloadsValue dJ with
  | error e => simp only [h6] at h; exact Except.noConfusion h
  | ok dlStr =>
  simp only [h6] at h
  cases h7 : pyGet ((jLookup gs "file").getD (Json.obj [])) "vername" Json.null with
  | error e => simp only [h7] at h; exact Except.noConfusion h
  | ok verJ =>
  simp only [h7] at h
  cases h8 : pyGet sig "sha1" Json.null with
  | error e => simp only [h8] at h; exact Except.noConfusion h
  | ok sha1J =>
  simp only [h8] at h
  injection h with h'
  rw [← h']
  exact ⟨rfl, formatSizeValue_ok _ _ h5⟩

/-! ### Claim theorems -/

/-- C1: the Resolver returns the first candidate, in upstream order, whose
`package` field is exactly (case-sensitively, full-string) equal to the
requested name: after any prefix of non-matching dict candidates and
before an arbitrary tail — so in particular a unique match is returned
regardless of its position — and every candidate the Resolver returns has
its `package` field exactly equal to the requested name, so a candidate
whose `package` merely contains the query as a substring or prefix is
never returned. -/
theorem resolver_first_exact_match :
    (∀ (q : String) (pre : List (List (String × Json))) (fs : List (String × Json))
       (rest : List Json),
       (∀ gs ∈ pre, isMatch q gs = false) → isMatch q fs = true →
       resolve_app_url q (.ok (mkSearchData (pre.map Json.obj ++ Json.obj fs :: rest))) =
         .ok (.obj fs)) ∧
    (∀ (q : String) (apps : List Json) (a : Json),
       resolve_app_url q (.ok (mkSearchData apps)) = .ok a →
       ∃ gs, a = Json.obj gs ∧ jLookup gs "package" = some (.str q)) := by
  constructor
  · intro q pre fs rest hpre hm
    apply resolve_ok_of_body_ok
    rw [resolveBody_mkSearchData]
    exact findExact_prefix_skip q pre fs rest hpre hm
  · intro q apps a h
    exact resolve_ok_match q (.ok (mkSearchData apps)) a h

theorem resolver_first_exact_match_witness :
    resolve_app_url "com.whatsapp"
      (.ok (mkSearchData [Json.obj [("package", Json.str "com.whatsapp.w4b")],
                          Json.obj [("package", Json.str "com.whatsapp")]])) =
      .ok (.obj [("package", Json.str "com.whatsapp")]) :=
  resolver_first_exact_match.1 "com.whatsapp"
    [[("package", Json.str "com.whatsapp.w4b")]]
    [("package", Json.str "com.whatsapp")] []
    (by
      intro gs hgs
      simp only [List.mem_singleton] at hgs
      subst hgs
      rfl)
    rfl

/-- C2: on a candidate list containing no element whose `package` field
equals the requested name exactly, the Resolver fails with the
`ValueError` carrying exactly the message "App not found on Aptoide" and
returns no element. -/
theorem resolver_no_match_not_found (q : String) (apps : List (List (String × Json)))
    (hn : ∀ gs ∈ apps, isMatch q gs = false) :
    resolve_app_url q (.ok (mkSearchData (apps.map Json.obj))) =
      .error (.valueError "App not found on Aptoide") := by
  have hb : resolveBody q (mkSearchData (apps.map Json.obj)) =
      .error (.valueError "App not found on Aptoide") := by
    rw [resolveBody_mkSearchData]
    exact findExact_all_nomatch q apps hn
  simp [resolve_app_url, hb]

theorem resolver_no_match_not_found_witness :
    resolve_app_url "com.whatsapp"
      (.ok (mkSearchData [Json.obj [("package", Json.str "com.whatsapp.w4b")]])) =
      .error (.valueError "App not found on Aptoide") :=
  resolver_no_match_not_found "com.whatsapp" [[("package", Json.str "com.whatsapp.w4b")]]
    (by
      intro gs hgs
      simp only [List.mem_singleton] at hgs
      subst hgs
      rfl)

/-- C3: whenever the pipeline (resolve followed by assemble) succeeds, the
`package_id` field of the produced record is exactly the requested query
string — because the Resolver only returns candidates whose `package`
field equals the query and the Assembler copies that field. -/
theorem pipeline_package_id_equals_query (q : String) (h : HttpOutcome) (rec : AppRecord)
    (hf : fetch_app_data q h = .ok rec) : rec.package_id = Json.str q := by
  simp only [fetch_app_data, bind, Except.bind] at hf
  cases hr : resolve_app_url q h with
  | error e => simp only [hr] at hf; exact Except.noConfusion hf
  | ok a =>
      simp only [hr] at hf
      obtain ⟨gs, rfl, hpkg⟩ := resolve_ok_match q h a hr
      have hfields := (format_app_data_fields gs rec hf).1
      rw [hfields, hpkg]
      rfl

theorem pipeline_package_id_equals_query_witness :
    AppRecord.package_id
      ⟨.null, "0.0 MB", "0", .null, .null, "SMALL", "arm64-v8a",
       Json.str "com.whatsapp", .null, "", "", "", "", ""⟩ = Json.str "com.whatsapp" :=
  pipeline_package_id_equals_query "com.whatsapp"
    (.ok (mkSearchData [.obj [("package", .str "com.whatsapp")]]))
    ⟨.null, "0.0 MB", "0", .null, .null, "SMALL", "arm64-v8a",
     Json.str "com.whatsapp", .null, "", "", "", "", ""⟩
    rfl

/-- C4, counterexample: a body that fails JSON decoding raises
`JSONDecodeError`, a `ValueError` subclass, so `except ValueError` in
`get_app_details` re-raises it with its message verbatim — not with the
"Failed to fetch app data: " prefix the claim requires for every
non-`NotFound` failure, and not the `NotFound` message either. -/
theorem facade_single_error_type_cex :
    get_app_details "com.whatsapp"
        (.jsonDecodeError "Expecting value: line 1 column 1 (char 0)") =
      .error "Expecting value: line 1 column 1 (char 0)" ∧
    ("Expecting value: line 1 column 1 (char 0)" : String) ≠
      "Failed to fetch app data: Expecting value: line 1 column 1 (char 0)" ∧
    ("Expecting value: line 1 column 1 (char 0)" : String) ≠ "App not found on Aptoide" :=
  ⟨rfl, by decide, by decide⟩

/-- C4 (amended): the façade fails only with the single wrapped error type
carrying a message; a failure that is a `ValueError` — the Resolver's
`NotFound` or a JSON-decode failure of the body — is reported with its
message verbatim, and every non-`ValueError` failure (network, HTTP
status, attribute or type error) is reported as "Failed to fetch app
data: " followed by the cause's message. -/
theorem facade_single_error_type (q : String) (h : HttpOutcome) (msg : String) :
    (fetch_app_data q h = .error (.valueError msg) → get_app_details q h = .error msg) ∧
    (fetch_app_data q h = .error (.typeError msg) →
       get_app_details q h = .error ("Failed to fetch app data: " ++ msg)) ∧
    (fetch_app_data q h = .error (.attributeError msg) →
       get_app_details q h = .error ("Failed to fetch app data: " ++ msg)) ∧
    (fetch_app_data q h = .error (.requestError msg) →
       get_app_details q h = .error ("Failed to fetch app data: " ++ msg)) ∧
    (∀ rec, fetch_app_data q h = .ok rec → get_app_details q h = .ok rec) :=
  ⟨fun he => by simp [get_app_details, he],
   fun he => by simp [get_app_details, he],
   fun he => by simp [get_app_details, he],
   fun he => by simp [get_app_details, he],
   fun rec he => by simp [get_app_details, he]⟩

theorem facade_single_error_type_witness :
    get_app_details "com.whatsapp" (.transportError "timeout") =
      .error "Failed to fetch app data: timeout" :=
  (facade_single_error_type "com.whatsapp" (.transportError "timeout") "timeout").2.2.2.1 rfl

/-- C5: `format_downloads` uses the first tier a count qualifies for —
billions with zero decimals and suffix "B", then millions and thousands
with one decimal and suffixes "M"/"K", and the plain decimal string below
one thousand — with the claimed boundary values 999, 1000, 999999,
1000000 and 1000000000. -/
theorem format_downloads_tiers :
    (format_downloads 999 = "999" ∧ format_downloads 1000 = "1.0K" ∧
     format_downloads 999999 = "1000.0K" ∧ format_downloads 1000000 = "1.0M" ∧
     format_downloads 1000000000 = "1B") ∧
    (∀ n : Int, 1000000000 ≤ n →
       format_downloads n = pyDivFormat n 1000000000 0 ++ "B") ∧
    (∀ n : Int, 1000000 ≤ n → n < 1000000000 →
       format_downloads n = pyDivFormat n 1000000 1 ++ "M") ∧
    (∀ n : Int, 1000 ≤ n → n < 1000000 →
       format_downloads n = pyDivFormat n 1000 1 ++ "K") ∧
    (∀ n : Int, 0 ≤ n → n < 1000 → format_downloads n = toString n) := by
  refine ⟨⟨rfl, rfl, rfl, rfl, rfl⟩, ?_, ?_, ?_, ?_⟩
  · intro n h1
    unfold format_downloads
    rw [if_pos h1]
  · intro n h1 h2
    unfold format_downloads
    rw [if_neg (by omega), if_pos h1]
  · intro n h1 h2
    unfold format_downloads
    rw [if_neg (by omega), if_neg (by omega), if_pos h1]
  · intro n h1 h2
    unfold format_downloads
    rw [if_neg (by omega), if_neg (by omega), if_neg (by omega)]

theorem format_downloads_tiers_witness :
    format_downloads 1500000 = pyDivFormat 1500000 1000000 1 ++ "M" :=
  format_downloads_tiers.2.2.1 1500000 (by decide) (by decide)

/-- C6: `format_size` always renders its argument divided by 1048576 with
exactly one decimal place and the suffix " MB" — no other unit is ever
produced — and `format_size 157286400 = "150.0 MB"`. -/
theorem format_size_megabytes_only :
    (∀ n : Int, format_size n = pyDivFormat n (1024 * 1024) 1 ++ " MB") ∧
    format_size 157286400 = "150.0 MB" :=
  ⟨fun _ => rfl, rfl⟩

/-- C7: the certificate parser splits on commas, splits each segment
containing "=" on the first "=" with key and value trimmed, maps CN, O,
L, C and ST to the five output fields (an ST value found in the state
table is abbreviated, any other ST value is stored as trimmed), ignores
every other key and every segment without "="; the empty input yields all
five fields empty, and the claimed WhatsApp example parses as stated. -/
theorem parse_certificate_key_mapping :
    (parse_certificate_info
        "CN=Brian Acton, O=WhatsApp Inc., L=Santa Clara, ST=California, C=US" =
      ⟨"Brian Acton", "WhatsApp Inc.", "Santa Clara", "US", "CA"⟩) ∧
    (parse_certificate_info "" = ⟨"", "", "", "", ""⟩) ∧
    (∀ result part, part.data.contains '=' = false → certStep result part = result) ∧
    (∀ result part k v, part.data.contains '=' = true → pySplitFirstEq part = (k, v) →
       (pyStrip k = "CN" → certStep result part = { result with developer_cn := pyStrip v }) ∧
       (pyStrip k = "O" → certStep result part = { result with organization := pyStrip v }) ∧
       (pyStrip k = "L" → certStep result part = { result with «local» := pyStrip v }) ∧
       (pyStrip k = "C" → certStep result part = { result with country := pyStrip v }) ∧
       (pyStrip k = "ST" → certStep result part =
          { result with state_city := (STATE_TO_ABBR.lookup (pyStrip v)).getD (pyStrip v) }) ∧
       (pyStrip k ∉ (["CN", "O", "L", "C", "ST"] : List String) →
          certStep result part = result)) := by
  refine ⟨rfl, rfl, certStep_skip, ?_⟩
  intro result part k v hc hsplit
  rw [certStep_update result part k v hc hsplit]
  refine ⟨?_, ?_, ?_, ?_, ?_, ?_⟩ <;> intro hk
  · rw [hk]; simp
  · rw [hk]; simp
  · rw [hk]; simp
  · rw [hk]; simp
  · rw [hk]; simp
  · simp only [List.mem_cons, List.not_mem_nil, or_false, not_or] at hk
    rw [if_neg hk.1, if_neg hk.2.1, if_neg hk.2.2.1, if_neg hk.2.2.2.1, if_neg hk.2.2.2.2]

theorem parse_certificate_key_mapping_witness :
    certStep emptyCert "OU=Engineering" = emptyCert :=
  ((parse_certificate_key_mapping.2.2.2 emptyCert "OU=Engineering" "OU" "Engineering"
      rfl rfl).2.2.2.2.2) (by decide)

/-- C8, counterexample: on a candidate whose nested `file.size` is
157286400 bytes but which has no top-level `size` field, the Assembler
produces `"0.0 MB"`, not `format_size 157286400 = "150.0 MB"` — the code
reads the top-level `size` key, not the nested `file.size` the claim
names. -/
theorem assembler_size_cex :
    (format_app_data (Json.obj [("package", Json.str "com.whatsapp"),
        ("file", Json.obj [("size", Json.num 157286400)])])).map AppRecord.size =
      .ok "0.0 MB" ∧
    format_size 157286400 = "150.0 MB" ∧ ("0.0 MB" : String) ≠ "150.0 MB" :=
  ⟨rfl, rfl, by decide⟩

/-- C8 (amended): the Assembler computes the output `size` field as
`format_size` applied to the candidate's top-level `size` value
(defaulting to 0 when absent), not the nested `file.size` value. -/
theorem assembler_size_from_top_level (gs : List (String × Json)) (rec : AppRecord)
    (h : format_app_data (Json.obj gs) = .ok rec) :
    rec.size = format_size (jNumCoerce ((jLookup gs "size").getD (Json.num 0))) :=
  (format_app_data_fields gs rec h).2

theorem assembler_size_from_top_level_witness :
    AppRecord.size
      ⟨.null, "150.0 MB", "0", .null, .null, "SMALL", "arm64-v8a",
       .null, .null, "", "", "", "", ""⟩ =
      format_size (jNumCoerce ((jLookup [("size", Json.num 157286400)] "size").getD (Json.num 0))) :=
  assembler_size_from_top_level [("size", Json.num 157286400)]
    ⟨.null, "150.0 MB", "0", .null, .null, "SMALL", "arm64-v8a",
     .null, .null, "", "", "", "", ""⟩
    rfl

/-- C9, counterexample: when the parsed body carries a wrongly-typed value
at `datalist` (here a string), `data.get("datalist", {}).get("list", [])`
raises `AttributeError`, which `except (KeyError, TypeError)` does not
catch — so the malformed response surfaces as an error distinct from the
`NotFound` produced for an empty result list, contradicting the claim
that the two are never distinguished. -/
theorem resolver_malformed_distinct_cex :
    resolve_app_url "com.whatsapp" (.ok (.obj [("datalist", .str "bad")])) =
      .error (.attributeError "'str' object has no attribute 'get'") ∧
    (Except.error (PyErr.attributeError "'str' object has no attribute 'get'") :
        Except PyErr Json) ≠ .error (.valueError "App not found on Aptoide") :=
  ⟨rfl, by simp⟩

/-- C9 (amended): when the `datalist` or `list` key is absent the Resolver
fails with the same `NotFound` as for an empty list, and a `list` value
that is not iterable (e.g. a number) raises `TypeError`, which the
`except` clause also folds into `NotFound`; but a wrongly-typed
intermediate value that lacks the `get` attribute (e.g. a string at
`datalist`) raises `AttributeError` and surfaces as a failure distinct
from `NotFound`. -/
theorem resolver_absent_path_not_found :
    (∀ (q : String) (fields : List (String × Json)),
       jLookup fields "datalist" = none →
       resolve_app_url q (.ok (.obj fields)) =
         .error (.valueError "App not found on Aptoide")) ∧
    (∀ (q : String) (fields gs : List (String × Json)),
       jLookup fields "datalist" = some (.obj gs) → jLookup gs "list" = none →
       resolve_app_url q (.ok (.obj fields)) =
         .error (.valueError "App not found on Aptoide")) ∧
    (∀ (q : String) (fields gs : List (String × Json)) (n : Int),
       jLookup fields "datalist" = some (.obj gs) → jLookup gs "list" = some (.num n) →
       resolve_app_url q (.ok (.obj fields)) =
         .error (.valueError "App not found on Aptoide")) ∧
    (∀ (q : String) (fields : List (String × Json)) (s : String),
       jLookup fields "datalist" = some (.str s) →
       ∃ m, resolve_app_url q (.ok (.obj fields)) = .error (.attributeError m)) := by
  refine ⟨?_, ?_, ?_, ?_⟩
  · intro q fields h
    have hb : resolveBody q (Json.obj fields) =
        .error (.valueError "App not found on Aptoide") := by
      simp only [resolveBody, bind, Except.bind, pyGet_obj, h]
      rfl
    simp [resolve_app_url, hb]
  · intro q fields gs h1 h2
    have hb : resolveBody q (Json.obj fields) =
        .error (.valueError "App not found on Aptoide") := by
      simp only [resolveBody, bind, Except.bind, pyGet_obj, h1, Option.getD_some, h2]
      rfl
    simp [resolve_app_url, hb]
  · intro q fields gs n h1 h2
    have hb : resolveBody q (Json.obj fields) =
        .error (.typeError "'int' object is not iterable") := by
      simp only [resolveBody, bind, Except.bind, pyGet_obj, h1, Option.getD_some, h2]
      rfl
    simp [resolve_app_url, hb]
  · intro q fields s h
    refine ⟨"'str' object has no attribute 'get'", ?_⟩
    have hb : resolveBody q (Json.obj fields) =
        .error (.attributeError "'str' object has no attribute 'get'") := by
      simp only [resolveBody, bind, Except.bind, pyGet_obj, h, Option.getD_some]
      rfl
    simp [resolve_app_url, hb]

theorem resolver_absent_path_not_found_witness :
    resolve_app_url "com.whatsapp" (.ok (.obj [])) =
      .error (.valueError "App not found on Aptoide") :=
  resolver_absent_path_not_found.1 "com.whatsapp" [] rfl

/-- C10: `parse_certificate_info` is total — every input string yields a
record with exactly the five string fields (the `CertInfo` type), with no
exception path — it is the fold of `certStep` over the stripped
comma-segments, and when the same recognised key occurs in several
segments the value from the last occurrence is the one kept, for each of
the five recognised keys; concretely, `"CN=x, CN=y"` keeps `"y"`. -/
theorem parse_certificate_total_last_wins :
    (∀ s : String, ∃ a b c d e : String, parse_certificate_info s = ⟨a, b, c, d, e⟩) ∧
    ((parse_certificate_info "CN=x, CN=y").developer_cn = "y") ∧
    (∀ s : String, parse_certificate_info s =
       List.foldl certStep emptyCert ((pySplitComma s).map pyStrip)) ∧
    (∀ (init : CertInfo) (segs : List String) (part k v : String),
       part.data.contains '=' = true → pySplitFirstEq part = (k, v) →
       (pyStrip k = "CN" →
          (List.foldl certStep init (segs ++ [part])).developer_cn = pyStrip v) ∧
       (pyStrip k = "O" →
          (List.foldl certStep init (segs ++ [part])).organization = pyStrip v) ∧
       (pyStrip k = "L" →
          (List.foldl certStep init (segs ++ [part])).«local» = pyStrip v) ∧
       (pyStrip k = "C" →
          (List.foldl certStep init (segs ++ [part])).country = pyStrip v) ∧
       (pyStrip k = "ST" →
          (List.foldl certStep init (segs ++ [part])).state_city =
            (STATE_TO_ABBR.lookup (pyStrip v)).getD (pyStrip v))) := by
  refine ⟨fun s => ⟨_, _, _, _, _, rfl⟩, rfl, fun _ => rfl, ?_⟩
  intro init segs part k v hc hsplit
  rw [List.foldl_append]
  simp only [List.foldl_cons, List.foldl_nil]
  rw [certStep_update _ part k v hc hsplit]
  refine ⟨?_, ?_, ?_, ?_, ?_⟩ <;> intro hk <;> rw [hk] <;> simp

theorem parse_certificate_total_last_wins_witness :
    (List.foldl certStep emptyCert (["CN=x"] ++ ["CN=y"])).developer_cn = pyStrip "y" :=
  (parse_certificate_total_last_wins.2.2.2 emptyCert ["CN=x"] "CN=y" "CN" "y" rfl rfl).1 rfl

end AptoideScraper
